import Mathlib

/-
Verification development for the GATE-2025 rank-predictor service
(`src/app.py`).  The core of the program — data cleaning, the cutoff and
top-mean statistics, multi-session normalization, the score interpolation
and the upsert/predict pipeline — is embedded shallowly below.  Marks and
all derived quantities are modelled over the exact rationals/reals (the
source computes with IEEE doubles); the Python `ZeroDivisionError` is
modelled by an `Option` result; the Excel-file store is modelled by the
list of records it holds, and `datetime.utcnow()` by an abstract `now`
parameter threaded into the pipeline.
-/

namespace GateApp

/-- One candidate row of the persisted table (`candidate_data.xlsx`), as in
the column set used by `clean_candidate_data`.  `timestamp` is the abstract write
time. -/
structure Record where
  candidate_id : String
  marks : ℚ
  branch : String
  shift : String
  timestamp : ℕ
deriving DecidableEq

/-- The Python `str.strip()`: leading and trailing whitespace removed. -/
def pyStrip (s : String) : String :=
  String.mk (((s.toList.dropWhile Char.isWhitespace).reverse.dropWhile Char.isWhitespace).reverse)

/-- The Python `str.upper()` (over the ASCII range the data uses). -/
def pyUpper (s : String) : String :=
  String.mk (s.toList.map Char.toUpper)

/-- The Python `str.capitalize()`: first character upper-cased, all remaining
characters lower-cased. -/
def pyCapitalize (s : String) : String :=
  match s.toList with
  | [] => s
  | c :: cs => String.mk (c.toUpper :: cs.map Char.toLower)

/-- The regex `^CS\d{2}S\d{8}$` used both by `clean_candidate_data` and by
the `/api/predict` validation. -/
def matchesCandidatePattern (s : String) : Bool :=
  match s.toList with
  | 'C' :: 'S' :: d1 :: d2 :: 'S' :: rest =>
      d1.isDigit && d2.isDigit && rest.length == 8 && rest.all Char.isDigit
  | _ => false

/-- `clean_candidate_data(df)` (src/app.py lines 16-45): normalize then filter
candidate id, marks, shift, branch, in that order; invalid rows are removed
silently.  Marks are already numeric in the model (the `pd.to_numeric`
coercion is the identity on the numeric domain embedded here). -/
def clean_candidate_data (df : List Record) : List Record :=
  if df = [] then df
  else
    let step1 := (df.map (fun r => { r with candidate_id := pyUpper (pyStrip r.candidate_id) })).filter
      (fun r => matchesCandidatePattern r.candidate_id)
    let step2 := step1.filter (fun r => decide (0 ≤ r.marks ∧ r.marks ≤ 100))
    let step3 := (step2.map (fun r => { r with shift := pyCapitalize (pyStrip r.shift) })).filter
      (fun r => r.shift == "Morning" || r.shift == "Afternoon")
    let step4 := (step3.map (fun r => { r with branch := pyUpper (pyStrip r.branch) })).filter
      (fun r => r.branch == "CSE")
    step4

/-- The `marks` column of a record set. -/
def marksList (l : List Record) : List ℚ := l.map (fun r => r.marks)

/-- `df["marks"].mean()`. -/
def meanMarks (l : List Record) : ℚ := (marksList l).sum / (l.length : ℚ)

/-- The sample variance behind `df["marks"].std(ddof=1)` (n-1 denominator). -/
def sampleVar (l : List Record) : ℚ :=
  ((marksList l).map (fun x => (x - meanMarks l) ^ 2)).sum / ((l.length : ℚ) - 1)

/-- `df["marks"].std(ddof=1)` followed by the `pd.isna(sigma)` guard of
`compute_cutoff`: with fewer than two rows pandas returns NaN and the source
replaces it by `0.0`; otherwise it is the square root of the sample
variance. -/
noncomputable def sigmaMarks (l : List Record) : ℝ :=
  if l.length < 2 then 0 else Real.sqrt (sampleVar l)

/-- `compute_cutoff(df)` (lines 73-86): 25 on an empty set, otherwise
`max(25, min(40, mu + sigma))`. -/
noncomputable def compute_cutoff (l : List Record) : ℝ :=
  if l = [] then 25
  else max 25 (min 40 ((meanMarks l : ℝ) + sigmaMarks l))

/-- The session subset `df[df["shift"] == shift]`. -/
def sessionFilter (l : List Record) (shift : String) : List Record :=
  l.filter (fun r => r.shift == shift)

/-- `compute_cutoff_for_session(df, shift)` (lines 88-100): the same formula
as `compute_cutoff`, applied to the session subset. -/
noncomputable def compute_cutoff_for_session (l : List Record) (shift : String) : ℝ :=
  if sessionFilter l shift = [] then 25
  else max 25 (min 40 ((meanMarks (sessionFilter l shift) : ℝ) + sigmaMarks (sessionFilter l shift)))

/-- `compute_top_mean(df)` (lines 102-113): 80 on an empty set, otherwise the
mean of the top `max(1, int(count * 0.001))` marks after sorting descending.
`int(count * 0.001)` is modelled by natural truncating division by 1000. -/
def compute_top_mean (l : List Record) : ℚ :=
  if l = [] then 80
  else
    let sorted := (marksList l).insertionSort (fun a b => b ≤ a)
    let top_count := max 1 (l.length / 1000)
    (sorted.take top_count).sum / (top_count : ℚ)

/-- `normalize_marks(raw_marks, shift)` (lines 115-138).  The source reloads
the store itself; here the (cleaned) loaded record set is the explicit third
argument.  Returns `(normalized, M_t_global, M_t_session, M_q_global)`. -/
noncomputable def normalize_marks (raw_marks : ℚ) (shift : String) (l : List Record) :
    ℝ × ℝ × ℝ × ℝ :=
  let M_q_global := compute_cutoff l
  let M_t_global := ((compute_top_mean l : ℚ) : ℝ)
  let M_q_session := compute_cutoff_for_session l shift
  let M_t_session := ((compute_top_mean (sessionFilter l shift) : ℚ) : ℝ)
  let normalized :=
    if M_t_session = M_q_session then ((raw_marks : ℚ) : ℝ)
    else M_q_global + ((M_t_global - M_q_global) / (M_t_session - M_q_session)) *
      ((raw_marks : ℝ) - M_q_session)
  (normalized, M_t_global, M_t_session, M_q_global)

/-- `compute_gate_score(marks, df)` (lines 140-155).  The interpolation
divides by `M_t - M_q` with no guard; in Python a zero divisor raises
`ZeroDivisionError`, modelled as `none`. -/
noncomputable def compute_gate_score (marks : ℝ) (l : List Record) : Option ℝ :=
  let M_q := compute_cutoff l
  let M_t := ((compute_top_mean l : ℚ) : ℝ)
  if marks < M_q then some 100
  else if M_t = M_q then none
  else some (350 + (1000 - 350) * ((marks - M_q) / (M_t - M_q)))

/-- The rounding of the Python built-in `round(x, 2)` (half-to-even at ties),
applied to `100 * x` at integer precision. -/
noncomputable def roundHalfEven (x : ℝ) : ℤ :=
  if x - ⌊x⌋ < 1 / 2 then ⌊x⌋
  else if 1 / 2 < x - ⌊x⌋ then ⌊x⌋ + 1
  else if Even ⌊x⌋ then ⌊x⌋ else ⌊x⌋ + 1

/-- `round(x, 2)` as used in the `/api/predict` response. -/
noncomputable def round2 (x : ℝ) : ℝ := (roundHalfEven (100 * x) : ℝ) / 100

/-- The update-or-append step of `predict` (lines 190-207): if a row with
the submitted candidate id exists, overwrite `marks`, `shift`, `timestamp`
of every matching row (keeping `branch`); otherwise append a fresh row with
branch `"CSE"`. -/
def upsert (l : List Record) (cid : String) (m : ℚ) (sh : String) (ts : ℕ) : List Record :=
  if cid ∈ l.map (fun r => r.candidate_id) then
    l.map (fun r =>
      if r.candidate_id = cid then { r with marks := m, shift := sh, timestamp := ts } else r)
  else l ++ [⟨cid, m, "CSE", sh, ts⟩]

/-- `df["candidate_id"].nunique()`. -/
def userCount (l : List Record) : ℕ := (l.map (fun r => r.candidate_id)).dedup.length

/-- The JSON body accepted by `/api/predict`; absent fields are `none`
(`data.get`), and `rawMarks` is modelled as present-and-numeric or absent. -/
structure PredictInput where
  candidate_id : String
  rawMarks : Option ℚ
  shift : Option String

/-- The success payload of `/api/predict` (lines 217-226). -/
structure PredictResponse where
  candidate_id : String
  rawMarks : ℝ
  normalizedMarks : ℝ
  gateScore : ℝ
  globalMt : ℝ
  sessionMt : ℝ
  cutoffGlobal : ℝ
  userCount : ℕ

/-- Outcome of one `/api/predict` request: a 400 validation response, an
unhandled exception (HTTP 500), or a 200 response together with the record
set written to the store at line 207. -/
inductive PredictResult where
  | badRequest (msg : String)
  | crash
  | ok (store : List Record) (resp : PredictResponse)

/-- `predict()` (lines 164-226) over a store whose file currently holds
`file`.  `load_candidate_data` is `clean_candidate_data` of the file
contents; the reload inside `normalize_marks` sees the just-saved set, hence
`clean_candidate_data df1`.  The gate score is computed on the in-memory
(uncleaned) `df1`. -/
noncomputable def predict (input : PredictInput) (file : List Record) (now : ℕ) :
    PredictResult :=
  let candidate_id := pyUpper (pyStrip input.candidate_id)
  if candidate_id = "" ∨ input.rawMarks = none ∨ input.shift = none then
    .badRequest "Candidate ID, rawMarks, and shift are required"
  else if ¬ matchesCandidatePattern candidate_id then
    .badRequest "Candidate ID must be in format CS##S######## (e.g., CS25S13049105)"
  else
    let raw_marks := input.rawMarks.getD 0
    let shift := input.shift.getD ""
    if raw_marks < 0 ∨ raw_marks > 100 then
      .badRequest "Marks must be between 0 and 100."
    else
      let df := clean_candidate_data file
      let df1 := upsert df candidate_id raw_marks shift now
      let n := normalize_marks raw_marks shift (clean_candidate_data df1)
      match compute_gate_score n.1 df1 with
      | none => .crash
      | some gate_score =>
          .ok df1
            { candidate_id := candidate_id
              rawMarks := ((raw_marks : ℚ) : ℝ)
              normalizedMarks := round2 n.1
              gateScore := round2 gate_score
              globalMt := round2 n.2.1
              sessionMt := round2 n.2.2.1
              cutoffGlobal := round2 n.2.2.2
              userCount := userCount df1 }

/-- The record written by end-to-end scenario 1 (empty store, id
`CS25S13049105`, raw marks 85, shift `Morning`, at abstract time 0). -/
def recM : Record := ⟨"CS25S13049105", 85, "CSE", "Morning", 0⟩

/-- The record written when the same candidate submits marks 50 with the
unrecognized shift `"Evening"`. -/
def recE : Record := ⟨"CS25S13049105", 50, "CSE", "Evening", 0⟩

/-- The rational 85.123, written as a normalized numerator/denominator pair
so that kernel reduction (`decide`) works on it. -/
def qR : ℚ := ⟨85123, 1000, by norm_num, by norm_num⟩

/-- The record written for a submission with non-two-decimal raw marks. -/
def recR : Record := ⟨"CS25S13049105", qR, "CSE", "Morning", 0⟩

def rec10a : Record := ⟨"CS25S00000001", 10, "CSE", "Morning", 0⟩
def rec10b : Record := ⟨"CS25S00000002", 10, "CSE", "Morning", 0⟩
def rec30a : Record := ⟨"CS25S00000003", 30, "CSE", "Morning", 0⟩
def rec30b : Record := ⟨"CS25S00000004", 30, "CSE", "Morning", 0⟩
def rec50a : Record := ⟨"CS25S00000005", 50, "CSE", "Morning", 0⟩
def rec50b : Record := ⟨"CS25S00000006", 50, "CSE", "Morning", 0⟩

/-- A record set with every mark equal to 10: its top-mean (10) is strictly
below its cutoff (25). -/
def recs10 : List Record := [rec10a, rec10b]

/-- A record set with every mark equal to 30: its top-mean equals its
cutoff, the divisor of the score interpolation is zero. -/
def recs30 : List Record := [rec30a, rec30b]

/-- A record set with every mark equal to 50: cutoff 40, top-mean 50. -/
def recs50 : List Record := [rec50a, rec50b]

/-- A two-candidate store used to exercise the upsert frame property. -/
def recsW : List Record :=
  [⟨"CS25S11111111", 60, "CSE", "Morning", 3⟩, ⟨"CS25S22222222", 70, "CSE", "Afternoon", 4⟩]

/- ------------------------------------------------------------------ -/
/- Evaluation lemmas for the statistics on small concrete record sets. -/
/- ------------------------------------------------------------------ -/

theorem sigma_short (l : List Record) (h : l.length < 2) : sigmaMarks l = 0 := by
  rw [sigmaMarks, if_pos h]

theorem cutoff_session_eq (l : List Record) (sh : String) :
    compute_cutoff_for_session l sh = compute_cutoff (sessionFilter l sh) := rfl

theorem cutoff_empty : compute_cutoff ([] : List Record) = 25 := by
  rw [compute_cutoff, if_pos rfl]

theorem topmean_empty : compute_top_mean ([] : List Record) = 80 := by
  rw [compute_top_mean, if_pos rfl]

theorem cutoff_single (r : Record) : compute_cutoff [r] = max 25 (min 40 (r.marks : ℝ)) := by
  rw [compute_cutoff, if_neg (by simp)]
  rw [sigma_short _ (by simp)]
  simp [meanMarks, marksList]

theorem topmean_single (r : Record) : compute_top_mean [r] = r.marks := by
  simp [compute_top_mean, marksList, List.insertionSort]

theorem meanMarks_pair_same (a b : Record) (h : a.marks = b.marks) :
    meanMarks [a, b] = a.marks := by
  rw [meanMarks]
  simp [marksList, h]

theorem sampleVar_pair_same (a b : Record) (h : a.marks = b.marks) :
    sampleVar [a, b] = 0 := by
  have hm := meanMarks_pair_same a b h
  rw [sampleVar]
  simp [marksList, hm, h]

theorem cutoff_pair_same (a b : Record) (h : a.marks = b.marks) :
    compute_cutoff [a, b] = max 25 (min 40 (a.marks : ℝ)) := by
  rw [compute_cutoff, if_neg (by simp)]
  rw [sigmaMarks, if_neg (by simp)]
  rw [sampleVar_pair_same a b h, meanMarks_pair_same a b h]
  rw [Rat.cast_zero, Real.sqrt_zero, add_zero]

theorem topmean_pair_same (a b : Record) (h : a.marks = b.marks) :
    compute_top_mean [a, b] = a.marks := by
  rw [compute_top_mean, if_neg (by simp)]
  simp [marksList, List.insertionSort, List.orderedInsert, h]

theorem cutoff_recM : compute_cutoff [recM] = 40 := by
  rw [cutoff_single, show recM.marks = 85 from rfl]
  norm_num

theorem topmean_recM : compute_top_mean [recM] = 85 := by
  rw [topmean_single]
  rfl

theorem cutoff_recE : compute_cutoff [recE] = 40 := by
  rw [cutoff_single, show recE.marks = 50 from rfl]
  norm_num

theorem topmean_recE : compute_top_mean [recE] = 50 := by
  rw [topmean_single]
  rfl

theorem qR_eq : qR = 85.123 := by
  rw [qR, Rat.mk'_eq_divInt, Rat.divInt_eq_div]
  norm_num

theorem cutoff_recR : compute_cutoff [recR] = 40 := by
  rw [cutoff_single, show recR.marks = qR from rfl, qR_eq]
  norm_num

theorem topmean_recR : compute_top_mean [recR] = 85.123 := by
  rw [topmean_single, show recR.marks = qR from rfl, qR_eq]

theorem cutoff_recs10 : compute_cutoff recs10 = 25 := by
  rw [show recs10 = [rec10a, rec10b] from rfl, cutoff_pair_same rec10a rec10b rfl]
  rw [show rec10a.marks = (10 : ℚ) from rfl]
  norm_num

theorem topmean_recs10 : compute_top_mean recs10 = 10 := by
  rw [show recs10 = [rec10a, rec10b] from rfl, topmean_pair_same rec10a rec10b rfl]
  rfl

theorem cutoff_recs30 : compute_cutoff recs30 = 30 := by
  rw [show recs30 = [rec30a, rec30b] from rfl, cutoff_pair_same rec30a rec30b rfl]
  rw [show rec30a.marks = (30 : ℚ) from rfl]
  norm_num

theorem topmean_recs30 : compute_top_mean recs30 = 30 := by
  rw [show recs30 = [rec30a, rec30b] from rfl, topmean_pair_same rec30a rec30b rfl]
  rfl

theorem cutoff_recs50 : compute_cutoff recs50 = 40 := by
  rw [show recs50 = [rec50a, rec50b] from rfl, cutoff_pair_same rec50a rec50b rfl]
  rw [show rec50a.marks = (50 : ℚ) from rfl]
  norm_num

theorem topmean_recs50 : compute_top_mean recs50 = 50 := by
  rw [show recs50 = [rec50a, rec50b] from rfl, topmean_pair_same rec50a rec50b rfl]
  rfl

/- ----------------------------------------------------- -/
/- Evaluation lemmas for the rounding and the pipeline.   -/
/- ----------------------------------------------------- -/

theorem roundHalfEven_int (n : ℤ) : roundHalfEven (n : ℝ) = n := by
  rw [roundHalfEven, Int.floor_intCast, if_pos (by norm_num)]

theorem roundHalfEven_down (x : ℝ) (n : ℤ) (h1 : (n : ℝ) ≤ x) (h2 : x < (n : ℝ) + 1 / 2) :
    roundHalfEven x = n := by
  have hf : ⌊x⌋ = n := Int.floor_eq_iff.mpr ⟨h1, by linarith⟩
  rw [roundHalfEven, hf, if_pos (by linarith)]

theorem round2_whole (x : ℝ) (n : ℤ) (h : 100 * x = (n : ℝ)) : round2 x = (n : ℝ) / 100 := by
  rw [round2, h, roundHalfEven_int]

theorem round2_85 : round2 (85 : ℝ) = 85 := by
  rw [round2_whole 85 8500 (by norm_num)]
  norm_num

theorem round2_1000 : round2 (1000 : ℝ) = 1000 := by
  rw [round2_whole 1000 100000 (by norm_num)]
  norm_num

theorem round2_40 : round2 (40 : ℝ) = 40 := by
  rw [round2_whole 40 4000 (by norm_num)]
  norm_num

theorem round2_50 : round2 (50 : ℝ) = 50 := by
  rw [round2_whole 50 5000 (by norm_num)]
  norm_num

theorem round2_80 : round2 (80 : ℝ) = 80 := by
  rw [round2_whole 80 8000 (by norm_num)]
  norm_num

theorem round2_25 : round2 (25 : ℝ) = 25 := by
  rw [round2_whole 25 2500 (by norm_num)]
  norm_num

theorem round2_85123 : round2 (85.123 : ℝ) = 85.12 := by
  rw [round2, show (100 : ℝ) * 85.123 = 8512.3 from by norm_num]
  rw [roundHalfEven_down 8512.3 8512 (by norm_num) (by norm_num)]
  norm_num

theorem normalize_recM : normalize_marks 85 "Morning" [recM] = (85, 85, 85, 40) := by
  rw [normalize_marks, cutoff_session_eq]
  rw [show sessionFilter [recM] "Morning" = [recM] from by decide]
  rw [cutoff_recM, topmean_recM]
  norm_num

theorem gate_recM : compute_gate_score 85 [recM] = some 1000 := by
  rw [compute_gate_score, cutoff_recM, topmean_recM]
  norm_num

theorem normalize_empty (raw : ℚ) (sh : String) :
    normalize_marks raw sh [] = ((raw : ℝ), 80, 80, 25) := by
  rw [normalize_marks, cutoff_session_eq]
  rw [show sessionFilter [] sh = ([] : List Record) from rfl]
  rw [cutoff_empty, topmean_empty]
  rw [if_neg (by norm_num)]
  norm_num

theorem gate_recE : compute_gate_score 50 [recE] = some 1000 := by
  rw [compute_gate_score, cutoff_recE, topmean_recE]
  norm_num

theorem normalize_recR : normalize_marks qR "Morning" [recR] = (85.123, 85.123, 85.123, 40) := by
  rw [normalize_marks, cutoff_session_eq]
  rw [show sessionFilter [recR] "Morning" = [recR] from by decide]
  rw [cutoff_recR, topmean_recR, qR_eq]
  norm_num

theorem gate_recR : compute_gate_score 85.123 [recR] = some 1000 := by
  rw [compute_gate_score, cutoff_recR, topmean_recR]
  norm_num

theorem qR_cast : ((qR : ℚ) : ℝ) = 85.123 := by
  rw [qR_eq]
  norm_num

/-- End-to-end run of `/api/predict` on an empty store with candidate
`CS25S13049105`, raw marks 85, shift `Morning`: the record is inserted and
the response carries normalized marks 85, score 1000, top-means 85 and
global cutoff 40, all computed over the post-insert single-record set. -/
theorem predict_scenario1 :
    predict ⟨"CS25S13049105", some 85, some "Morning"⟩ [] 0 =
      .ok [recM] ⟨"CS25S13049105", 85, 85, 1000, 85, 85, 40, 1⟩ := by
  have hid : pyUpper (pyStrip "CS25S13049105") = "CS25S13049105" := by decide
  have h1 : clean_candidate_data ([] : List Record) = [] := rfl
  have h2 : upsert [] "CS25S13049105" 85 "Morning" 0 = [recM] := by decide
  have h3 : clean_candidate_data [recM] = [recM] := by decide
  have h4 : userCount [recM] = 1 := by decide
  simp only [predict, hid, Option.getD_some, h1, h2, h3, h4, normalize_recM, gate_recM,
    round2_85, round2_1000, round2_40]
  rw [if_neg (by decide), if_neg (by decide), if_neg (by decide)]
  norm_num [PredictResult.ok.injEq, PredictResponse.mk.injEq]

/-- End-to-end run of `/api/predict` on an empty store with the unrecognized
shift `"Evening"`: no validation error is raised, the record is written,
the reload inside `normalize_marks` sees an empty cleaned set (fallback
statistics 25/80), and the gate score is computed on the in-memory set. -/
theorem predict_scenarioE :
    predict ⟨"CS25S13049105", some 50, some "Evening"⟩ [] 0 =
      .ok [recE] ⟨"CS25S13049105", 50, 50, 1000, 80, 80, 25, 1⟩ := by
  have hid : pyUpper (pyStrip "CS25S13049105") = "CS25S13049105" := by decide
  have h1 : clean_candidate_data ([] : List Record) = [] := rfl
  have h2 : upsert [] "CS25S13049105" 50 "Evening" 0 = [recE] := by decide
  have h3 : clean_candidate_data [recE] = [] := by decide
  have h4 : userCount [recE] = 1 := by decide
  have h5 := normalize_empty 50 "Evening"
  rw [show ((50 : ℚ) : ℝ) = (50 : ℝ) from by norm_num] at h5
  simp only [predict, hid, Option.getD_some, h1, h2, h3, h4, h5, gate_recE,
    round2_50, round2_1000, round2_80, round2_25]
  rw [if_neg (by decide), if_neg (by decide), if_neg (by decide)]
  norm_num [PredictResult.ok.injEq, PredictResponse.mk.injEq]

/-- End-to-end run of `/api/predict` on an empty store with raw marks
85.123: the response echoes `rawMarks` unrounded while the other float
fields are rounded to two decimals. -/
theorem predict_scenarioR :
    predict ⟨"CS25S13049105", some qR, some "Morning"⟩ [] 0 =
      .ok [recR] ⟨"CS25S13049105", 85.123, 85.12, 1000, 85.12, 85.12, 40, 1⟩ := by
  have hid : pyUpper (pyStrip "CS25S13049105") = "CS25S13049105" := by decide
  have h1 : clean_candidate_data ([] : List Record) = [] := rfl
  have h2 : upsert [] "CS25S13049105" qR "Morning" 0 = [recR] := by decide
  have h3 : clean_candidate_data [recR] = [recR] := by decide
  have h4 : userCount [recR] = 1 := by decide
  simp only [predict, hid, Option.getD_some, h1, h2, h3, h4, normalize_recR, gate_recR,
    round2_85123, round2_1000, round2_40, qR_cast]
  rw [if_neg (by decide), if_neg (by decide), if_neg (by decide)]

/- ------------------------------------------------------------------ -/
/- Claims.                                                             -/
/- ------------------------------------------------------------------ -/

/-- Claim C1, counterexample.  On an empty store, submitting
`CS25S13049105`/85/`Morning` does NOT yield the fallback statistics the
claim asserts: the response carries global cutoff 40 (not 25) and global
top-mean 85 (not 80), the session fallback branch is not taken (session
top-mean 85 differs from session cutoff 40), and the gate score 1000
differs from the claimed interpolation with `Mq=25, Mt=80`. -/
theorem claim_C1_counterexample :
    predict ⟨"CS25S13049105", some 85, some "Morning"⟩ [] 0 =
      PredictResult.ok [recM] ⟨"CS25S13049105", 85, 85, 1000, 85, 85, 40, 1⟩ ∧
    (40 : ℝ) ≠ 25 ∧ (85 : ℝ) ≠ 80 ∧
    ¬ ((compute_top_mean (sessionFilter [recM] "Morning") : ℚ) : ℝ) =
        compute_cutoff_for_session [recM] "Morning" ∧
    (1000 : ℝ) ≠ 350 + (1000 - 350) * ((85 - 25) / (80 - 25)) := by
  refine ⟨predict_scenario1, by norm_num, by norm_num, ?_, by norm_num⟩
  rw [cutoff_session_eq, show sessionFilter [recM] "Morning" = [recM] from by decide,
    cutoff_recM, topmean_recM]
  norm_num

/-- Claim C1, amended.  On an empty store the submission is inserted first,
so the statistics are computed over the post-insert single-record set:
global and session cutoff 40 (the clamp at 40 of mean 85 with zero sigma),
global and session top-mean 85, normalization takes the interpolation
branch (session top-mean 85 differs from session cutoff 40) and still
returns 85, and the score is 1000 via the interpolation with
`Mq=40, Mt=85`. -/
theorem claim_C1_amended :
    predict ⟨"CS25S13049105", some 85, some "Morning"⟩ [] 0 =
      PredictResult.ok [recM] ⟨"CS25S13049105", 85, 85, 1000, 85, 85, 40, 1⟩ ∧
    compute_cutoff [recM] = 40 ∧
    compute_top_mean [recM] = 85 ∧
    compute_cutoff_for_session [recM] "Morning" = 40 ∧
    compute_top_mean (sessionFilter [recM] "Morning") = 85 ∧
    (normalize_marks 85 "Morning" [recM]).1 = 85 ∧
    compute_gate_score 85 [recM] = some 1000 := by
  have hf : sessionFilter [recM] "Morning" = [recM] := by decide
  refine ⟨predict_scenario1, cutoff_recM, topmean_recM, ?_, ?_, ?_, gate_recM⟩
  · rw [cutoff_session_eq, hf, cutoff_recM]
  · rw [hf, topmean_recM]
  · rw [normalize_recM]

/-- Claim C2 (code defect).  A submission with the unrecognized shift
`"Evening"` is not rejected: `predict` validates only the candidate id and
the marks, so the request succeeds and the record — whose shift is outside
the recognized set that the cleaning pass enforces — is written to
the store. -/
theorem claim_C2_code_defect :
    predict ⟨"CS25S13049105", some 50, some "Evening"⟩ [] 0 =
      PredictResult.ok [recE] ⟨"CS25S13049105", 50, 50, 1000, 80, 80, 25, 1⟩ ∧
    recE.shift ∉ (["Morning", "Afternoon"] : List String) :=
  ⟨predict_scenarioE, by decide⟩

/-- Claim C3, counterexample.  Over the record set with both marks equal to
10, the cutoff is 25 and the top-mean is 10, so the interpolation slope is
negative: at the normalized mark `25 + 75/13` (above the cutoff) the score
returned is exactly 100, refuting the claimed equivalence. -/
theorem claim_C3_counterexample :
    compute_gate_score (25 + 75 / 13) recs10 = some 100 ∧
    ¬ ((25 + 75 / 13 : ℝ) < compute_cutoff recs10) := by
  constructor
  · rw [compute_gate_score, cutoff_recs10, topmean_recs10]
    rw [if_neg (by norm_num), if_neg (by norm_num)]
    norm_num
  · rw [cutoff_recs10]
    norm_num

/-- Claim C3, amended.  The claimed equivalence and monotonicity hold for
every record set whose top-mean is strictly ABOVE its cutoff: then the
score is 100 exactly when the mark is below the cutoff, and the score is
strictly increasing in the mark at and above the cutoff. -/
theorem claim_C3_amended (l : List Record) (m1 m2 : ℝ)
    (h : compute_cutoff l < ((compute_top_mean l : ℚ) : ℝ))
    (h1 : compute_cutoff l ≤ m1) (h2 : m1 < m2) :
    (∀ m : ℝ, compute_gate_score m l = some 100 ↔ m < compute_cutoff l) ∧
    ∃ s1 s2 : ℝ, compute_gate_score m1 l = some s1 ∧ compute_gate_score m2 l = some s2 ∧
      s1 < s2 := by
  have hd : (0 : ℝ) < ((compute_top_mean l : ℚ) : ℝ) - compute_cutoff l := sub_pos.mpr h
  constructor
  · intro m
    rw [compute_gate_score]
    split_ifs with hm he
    · simp [hm]
    · exact absurd he (ne_of_gt h)
    · constructor
      · intro hs
        rw [Option.some_inj] at hs
        have hr : 0 ≤ (m - compute_cutoff l) /
            (((compute_top_mean l : ℚ) : ℝ) - compute_cutoff l) :=
          div_nonneg (by linarith [not_lt.mp hm]) (le_of_lt hd)
        linarith
      · intro hm2
        exact absurd hm2 hm
  · have e1 : compute_gate_score m1 l = some (350 + (1000 - 350) *
        ((m1 - compute_cutoff l) / (((compute_top_mean l : ℚ) : ℝ) - compute_cutoff l))) := by
      rw [compute_gate_score, if_neg (by linarith), if_neg (ne_of_gt h)]
    have e2 : compute_gate_score m2 l = some (350 + (1000 - 350) *
        ((m2 - compute_cutoff l) / (((compute_top_mean l : ℚ) : ℝ) - compute_cutoff l))) := by
      rw [compute_gate_score, if_neg (by linarith), if_neg (ne_of_gt h)]
    refine ⟨_, _, e1, e2, ?_⟩
    have hq : (m1 - compute_cutoff l) / (((compute_top_mean l : ℚ) : ℝ) - compute_cutoff l) <
        (m2 - compute_cutoff l) / (((compute_top_mean l : ℚ) : ℝ) - compute_cutoff l) :=
      (div_lt_div_iff_of_pos_right hd).mpr (by linarith)
    linarith

/-- Claim C3, witness.  The amended statement applied to the concrete set
with both marks 50 (cutoff 40, top-mean 50) and to marks 45 and 47. -/
theorem claim_C3_witness :
    (∀ m : ℝ, compute_gate_score m recs50 = some 100 ↔ m < compute_cutoff recs50) ∧
    ∃ s1 s2 : ℝ, compute_gate_score 45 recs50 = some s1 ∧
      compute_gate_score 47 recs50 = some s2 ∧ s1 < s2 :=
  claim_C3_amended recs50 45 47 (by rw [cutoff_recs50, topmean_recs50]; norm_num)
    (by rw [cutoff_recs50]; norm_num) (by norm_num)

/-- Claim C4 (code defect).  Over the record set with both marks 30, the
top-mean equals the cutoff (both 30); for the mark 30, which is not below
the cutoff, the score computation reaches the division with a zero divisor
and fails (a `ZeroDivisionError` in the source) instead of taking any
deterministic fallback. -/
theorem claim_C4_code_defect :
    ((compute_top_mean recs30 : ℚ) : ℝ) = compute_cutoff recs30 ∧
    ¬ ((30 : ℝ) < compute_cutoff recs30) ∧
    compute_gate_score 30 recs30 = none := by
  refine ⟨by rw [cutoff_recs30, topmean_recs30]; norm_num,
    by rw [cutoff_recs30]; norm_num, ?_⟩
  rw [compute_gate_score, cutoff_recs30, topmean_recs30]
  rw [if_neg (by norm_num), if_pos (by norm_num)]

/-- Claim C5.  The cutoff is 25 on the empty set, always lies in [25, 40],
and on a non-empty set equals `clamp(mean + sigma, 25, 40)` where sigma is
0 whenever fewer than two records exist. -/
theorem claim_C5 :
    compute_cutoff ([] : List Record) = 25 ∧
    (∀ l : List Record, 25 ≤ compute_cutoff l ∧ compute_cutoff l ≤ 40) ∧
    (∀ l : List Record, l ≠ [] →
      compute_cutoff l = max 25 (min 40 ((meanMarks l : ℝ) + sigmaMarks l))) ∧
    ∀ l : List Record, l.length < 2 → sigmaMarks l = 0 := by
  refine ⟨cutoff_empty, fun l => ?_, fun l h => ?_, fun l h => sigma_short l h⟩
  · rw [compute_cutoff]
    split_ifs
    · norm_num
    · exact ⟨le_max_left _ _, max_le (by norm_num) (min_le_left _ _)⟩
  · rw [compute_cutoff, if_neg h]

/-- Claim C5, witness: the non-empty-set formula at a one-record set and
the small-set sigma fallback at that same set. -/
theorem claim_C5_witness :
    compute_cutoff [recM] = max 25 (min 40 ((meanMarks [recM] : ℝ) + sigmaMarks [recM])) ∧
    sigmaMarks [recM] = 0 :=
  ⟨claim_C5.2.2.1 [recM] (by simp), claim_C5.2.2.2 [recM] (by decide)⟩

/-- Claim C6.  Normalization returns the raw mark unchanged exactly when
the session top-mean equals the session cutoff (the cutoff of the
session subset), and otherwise applies the affine interpolation
`Mq_g + (Mt_g - Mq_g) / (Mt_s - Mq_s) * (raw - Mq_s)`. -/
theorem claim_C6 (raw : ℚ) (sh : String) (l : List Record) :
    (normalize_marks raw sh l).1 =
      if ((compute_top_mean (sessionFilter l sh) : ℚ) : ℝ) = compute_cutoff (sessionFilter l sh)
        then (raw : ℝ)
        else compute_cutoff l +
          (((compute_top_mean l : ℚ) : ℝ) - compute_cutoff l) /
            (((compute_top_mean (sessionFilter l sh) : ℚ) : ℝ) -
              compute_cutoff (sessionFilter l sh)) *
            ((raw : ℝ) - compute_cutoff (sessionFilter l sh)) := by
  rw [normalize_marks, cutoff_session_eq]

/-- Claim C7.  When the submitted candidate id already occurs in the set,
the upsert maps every row in place: the id column is unchanged (hence the
distinct-candidate count is unchanged), the matching row gets the new
marks/shift/timestamp while keeping its stored branch, and every other row
is untouched. -/
theorem claim_C7 (l : List Record) (cid : String) (m : ℚ) (sh : String) (ts : ℕ)
    (h : cid ∈ l.map (fun r => r.candidate_id)) :
    upsert l cid m sh ts =
      l.map (fun r =>
        if r.candidate_id = cid then { r with marks := m, shift := sh, timestamp := ts }
        else r) ∧
    (upsert l cid m sh ts).map (fun r => r.candidate_id) = l.map (fun r => r.candidate_id) ∧
    userCount (upsert l cid m sh ts) = userCount l ∧
    (∀ r ∈ l, r.candidate_id = cid →
      ({ r with marks := m, shift := sh, timestamp := ts } : Record) ∈ upsert l cid m sh ts ∧
        ({ r with marks := m, shift := sh, timestamp := ts } : Record).branch = r.branch) ∧
    ∀ r ∈ l, r.candidate_id ≠ cid → r ∈ upsert l cid m sh ts := by
  have e : upsert l cid m sh ts = l.map (fun r =>
      if r.candidate_id = cid then { r with marks := m, shift := sh, timestamp := ts }
      else r) := by
    rw [upsert, if_pos h]
  have hids : (upsert l cid m sh ts).map (fun r => r.candidate_id) =
      l.map (fun r => r.candidate_id) := by
    rw [e, List.map_map]
    congr 1
    funext r
    by_cases hr : r.candidate_id = cid
    · simp [Function.comp, hr]
    · simp [Function.comp, hr]
  refine ⟨e, hids, ?_, ?_, ?_⟩
  · rw [userCount, userCount, hids]
  · intro r hr hcid
    refine ⟨?_, rfl⟩
    have hfr : (fun r => if r.candidate_id = cid
        then ({ r with marks := m, shift := sh, timestamp := ts } : Record) else r) r =
        ({ r with marks := m, shift := sh, timestamp := ts } : Record) := by
      simp [hcid]
    rw [e, ← hfr]
    exact List.mem_map_of_mem _ hr
  · intro r hr hcid
    have hfr : (fun r => if r.candidate_id = cid
        then ({ r with marks := m, shift := sh, timestamp := ts } : Record) else r) r = r := by
      simp [hcid]
    rw [e, ← hfr]
    exact List.mem_map_of_mem _ hr

/-- Claim C7, witness: upserting the already-present id `CS25S11111111`
into the two-record store leaves the distinct-candidate count unchanged. -/
theorem claim_C7_witness :
    "CS25S11111111" ∈ recsW.map (fun r => r.candidate_id) ∧
    userCount (upsert recsW "CS25S11111111" 77 "Afternoon" 9) = userCount recsW :=
  ⟨by decide, (claim_C7 recsW "CS25S11111111" 77 "Afternoon" 9 (by decide)).2.2.1⟩

/-- Claim C8, counterexample.  Submitting raw marks 85.123 yields a success
response whose `rawMarks` field is the unrounded 85.123, which is not a
two-decimal value: not every numeric response field is rounded. -/
theorem claim_C8_counterexample :
    predict ⟨"CS25S13049105", some qR, some "Morning"⟩ [] 0 =
      PredictResult.ok [recR] ⟨"CS25S13049105", 85.123, 85.12, 1000, 85.12, 85.12, 40, 1⟩ ∧
    (85.123 : ℝ) ≠ round2 85.123 := by
  refine ⟨predict_scenarioR, ?_⟩
  rw [round2_85123]
  norm_num

/-- Claim C8, amended.  In every success response, `normalizedMarks`,
`gateScore`, `globalMt`, `sessionMt` and `cutoffGlobal` are the two-decimal
roundings of the corresponding computed quantities and `userCount` is the
distinct-candidate count, but `rawMarks` is echoed unrounded. -/
theorem claim_C8_amended (input : PredictInput) (file : List Record) (now : ℕ)
    (store : List Record) (resp : PredictResponse)
    (h : predict input file now = PredictResult.ok store resp) :
    resp.rawMarks = ((input.rawMarks.getD 0 : ℚ) : ℝ) ∧
    resp.normalizedMarks = round2 (normalize_marks (input.rawMarks.getD 0)
      (input.shift.getD "") (clean_candidate_data store)).1 ∧
    Option.map round2 (compute_gate_score (normalize_marks (input.rawMarks.getD 0)
      (input.shift.getD "") (clean_candidate_data store)).1 store) = some resp.gateScore ∧
    resp.globalMt = round2 (normalize_marks (input.rawMarks.getD 0)
      (input.shift.getD "") (clean_candidate_data store)).2.1 ∧
    resp.sessionMt = round2 (normalize_marks (input.rawMarks.getD 0)
      (input.shift.getD "") (clean_candidate_data store)).2.2.1 ∧
    resp.cutoffGlobal = round2 (normalize_marks (input.rawMarks.getD 0)
      (input.shift.getD "") (clean_candidate_data store)).2.2.2 ∧
    resp.userCount = userCount store := by
  simp only [predict] at h
  split_ifs at h
  split at h
  · exact absurd h (by simp)
  · rw [PredictResult.ok.injEq] at h
    obtain ⟨h1, h2⟩ := h
    subst h1
    subst h2
    rename_i gs heq
    refine ⟨rfl, rfl, ?_, rfl, rfl, rfl, rfl⟩
    rw [heq]
    rfl

/-- Claim C8, witness: the amended statement instantiated at the
end-to-end scenario on the empty store. -/
theorem claim_C8_witness :
    (⟨"CS25S13049105", 85, 85, 1000, 85, 85, 40, 1⟩ : PredictResponse).rawMarks =
      ((85 : ℚ) : ℝ) ∧
    (⟨"CS25S13049105", 85, 85, 1000, 85, 85, 40, 1⟩ : PredictResponse).normalizedMarks =
      round2 (normalize_marks 85 "Morning" (clean_candidate_data [recM])).1 := by
  have h := claim_C8_amended ⟨"CS25S13049105", some 85, some "Morning"⟩ [] 0 [recM]
    ⟨"CS25S13049105", 85, 85, 1000, 85, 85, 40, 1⟩ predict_scenario1
  exact ⟨h.1, h.2.1⟩

/-- Claim C9.  A submission with valid id and marks but the unrecognized
shift `"Evening"` succeeds and writes a record whose shift is outside the
recognized set — violating the stored-set invariant — and the cleaning
pass at the next load silently drops that record. -/
theorem claim_C9 :
    predict ⟨"CS25S13049105", some 50, some "Evening"⟩ [] 0 =
      PredictResult.ok [recE] ⟨"CS25S13049105", 50, 50, 1000, 80, 80, 25, 1⟩ ∧
    recE.shift ∉ (["Morning", "Afternoon"] : List String) ∧
    clean_candidate_data [recE] = [] :=
  ⟨predict_scenarioE, by decide, by decide⟩

/-- Claim C10.  When the top-mean is strictly above the cutoff, every
normalized mark strictly above the top-mean scores strictly more than the
high anchor 1000: the final score is uncapped. -/
theorem claim_C10 (l : List Record) (m : ℝ)
    (h1 : compute_cutoff l < ((compute_top_mean l : ℚ) : ℝ))
    (h2 : ((compute_top_mean l : ℚ) : ℝ) < m) :
    ∃ s : ℝ, compute_gate_score m l = some s ∧ 1000 < s := by
  rw [compute_gate_score]
  rw [if_neg (by linarith), if_neg (ne_of_gt h1)]
  refine ⟨_, rfl, ?_⟩
  have hd : (0 : ℝ) < ((compute_top_mean l : ℚ) : ℝ) - compute_cutoff l := sub_pos.mpr h1
  have hr : 1 < (m - compute_cutoff l) / (((compute_top_mean l : ℚ) : ℝ) - compute_cutoff l) :=
    (one_lt_div hd).mpr (by linarith)
  linarith

/-- Claim C10, witness: over the set with both marks 50 (cutoff 40,
top-mean 50), the mark 60 scores strictly above 1000. -/
theorem claim_C10_witness :
    ∃ s : ℝ, compute_gate_score 60 recs50 = some s ∧ 1000 < s :=
  claim_C10 recs50 60 (by rw [cutoff_recs50, topmean_recs50]; norm_num)
    (by rw [topmean_recs50]; norm_num)

end GateApp
